import Mathlib

set_option maxRecDepth 2000

attribute [local semireducible] Rat.mul Rat.add Rat.sub Rat.inv

/-!
Verification of the EmbiggenEye feature-normalization and score-estimation
pipeline.  The definitions below are a shallow embedding of the JavaScript
source (src/docs/app.js and the variant normalizer in src/unnamed/part_003):
JavaScript values are modelled by the inductive `JSVal`, numbers by `ℚ`
(JSON numbers are finite; the pipeline performs only field arithmetic),
nullable results by `Option`, and the one throwing code path by `Except`.
-/

/-- Model of a JavaScript/JSON value as it occurs in the data
flow: `jundefined` is JavaScript `undefined` (absent object fields), `jnull` is
JSON `null`.  Numbers are rationals (JSON numbers are finite decimals). -/
inductive JSVal where
  | jundefined : JSVal
  | jnull : JSVal
  | jbool : Bool → JSVal
  | jnum : ℚ → JSVal
  | jstr : String → JSVal
  | jarr : List JSVal → JSVal
  | jobj : List (String × JSVal) → JSVal
deriving Inhabited

/-- JavaScript truthiness: `undefined`, `null`, `false`, `0` and the empty
string are falsy; every array and object is truthy. -/
def truthy : JSVal → Bool
  | .jundefined => false
  | .jnull => false
  | .jbool b => b
  | .jnum q => if q = 0 then false else true
  | .jstr s => if s = "" then false else true
  | .jarr _ => true
  | .jobj _ => true

/-- A value is nullish (`undefined` or `null`); this is what the `??`
operator and `== null` comparisons test. -/
def isNullish : JSVal → Bool
  | .jundefined => true
  | .jnull => true
  | _ => false

/-- Test for exactly `undefined` (the `!== undefined` checks). -/
def isUndef : JSVal → Bool
  | .jundefined => true
  | _ => false

/-- Property access `o[k]`: on an object, the field value (or `undefined`
when absent); on any non-object receiver the result is `undefined`.  The
embedding only applies it behind the non-nullish guards of the source. -/
def getField : JSVal → String → JSVal
  | .jobj fs, k => ((fs.find? (fun p => p.1 == k)).map Prod.snd).getD .jundefined
  | _, _ => .jundefined

/-- The `a ?? b ?? ...` coalescing chain: the first non-nullish operand;
when every operand is nullish the chain yields its last operand unchanged
(JavaScript keeps the final nullish value, `null` or `undefined`).  The
empty chain does not occur in the source. -/
def coalesce : List JSVal → JSVal
  | [] => .jundefined
  | [x] => x
  | x :: xs => if isNullish x then coalesce xs else x

/-- The `a || b` operator: `a` when truthy, else `b`. -/
def jsOr (a b : JSVal) : JSVal := if truthy a then a else b

/-- Test for `Array.isArray`. -/
def isArr : JSVal → Bool
  | .jarr _ => true
  | _ => false

/-- The element list of an array value (empty for non-arrays). -/
def arrElems : JSVal → List JSVal
  | .jarr l => l
  | _ => []

/-- Array indexing `a[i]` (out-of-range and non-array reads give
`undefined`). -/
def arrGet (v : JSVal) (i : ℕ) : JSVal := (arrElems v).getD i .jundefined

/-- Accumulate a decimal digit string; `none` when a non-digit occurs. -/
def digitsVal (cs : List Char) : Option ℕ :=
  cs.foldl
    (fun acc c =>
      match acc with
      | none => none
      | some n => if c.isDigit then some (n * 10 + (c.toNat - '0'.toNat)) else none)
    (some 0)

/-- Parse the exponent part of a numeric literal (after `e`/`E`):
optional sign followed by at least one digit. -/
def parseExpPart (cs : List Char) : Option ℤ :=
  match cs with
  | [] => none
  | '+' :: rest => if rest.isEmpty then none else (digitsVal rest).map Int.ofNat
  | '-' :: rest => if rest.isEmpty then none else (digitsVal rest).map (fun n => -(n : ℤ))
  | _ => (digitsVal cs).map Int.ofNat

/-- Parse an unsigned decimal mantissa `digits[.digits]` (either side of the
point may be empty, but not both). -/
def parseMantissa (cs : List Char) : Option ℚ :=
  let intPart := cs.takeWhile (fun c => c ≠ '.')
  match cs.dropWhile (fun c => c ≠ '.') with
  | [] =>
    if intPart.isEmpty then none else (digitsVal intPart).map (fun n => (n : ℚ))
  | _ :: frac =>
    if intPart.isEmpty && frac.isEmpty then none
    else
      match (if intPart.isEmpty then some 0 else digitsVal intPart),
            (if frac.isEmpty then some 0 else digitsVal frac) with
      | some ip, some fp =>
        if frac.contains '.' then none
        else some ((ip : ℚ) + (fp : ℚ) / (10 : ℚ) ^ frac.length)
      | _, _ => none

/-- Whitespace trimming on a character list (ECMAScript trims whitespace
around numeric strings before conversion). -/
def trimChars (cs : List Char) : List Char :=
  ((cs.dropWhile Char.isWhitespace).reverse.dropWhile Char.isWhitespace).reverse

/-- Model of ECMAScript string-to-number conversion for the decimal
literals occurring in this data set: optional sign, decimal mantissa,
optional exponent; a whitespace-only string converts to 0; anything else
(including the hex/`Infinity` forms, which never occur here) is NaN,
modelled as `none`. -/
def strToNum (s : String) : Option ℚ :=
  let cs := trimChars s.data
  if cs.isEmpty then some 0
  else
    let mantCs := cs.takeWhile (fun c => c ≠ 'e' && c ≠ 'E')
    let restCs := cs.dropWhile (fun c => c ≠ 'e' && c ≠ 'E')
    let mant : Option ℚ :=
      match mantCs with
      | '+' :: r => parseMantissa r
      | '-' :: r => (parseMantissa r).map Neg.neg
      | r => parseMantissa r
    match restCs with
    | [] => mant
    | _ :: expCs =>
      match mant, parseExpPart expCs with
      | some m, some e =>
        if 0 ≤ e then some (m * (10 : ℚ) ^ e.toNat)
        else some (m / (10 : ℚ) ^ (-e).toNat)
      | _, _ => none

/-- Model of `Number(v)` for the value forms reachable in this pipeline.
`NaN` is modelled as `none`.  Arrays and plain objects coerce through
string conversion in JavaScript; no verified claim feeds them to a numeric
field, so they are conservatively sent to NaN. -/
def jsToNumber : JSVal → Option ℚ
  | .jundefined => none
  | .jnull => some 0
  | .jbool b => some (cond b 1 0)
  | .jnum q => some q
  | .jstr s => strToNum s
  | .jarr _ => none
  | .jobj _ => none

/-- Decimal display of a number for string conversion; non-integral
rationals never reach a string position in the verified claims. -/
def ratToDisplay (q : ℚ) : String :=
  if q.den = 1 then toString q.num else toString q

/-- String conversion of an element inside an array being stringified
(`null`/`undefined` become empty; nested arrays are unreached by claims). -/
def primToString : JSVal → String
  | .jundefined => ""
  | .jnull => ""
  | .jbool b => cond b "true" "false"
  | .jnum q => ratToDisplay q
  | .jstr s => s
  | .jobj _ => "[object Object]"
  | .jarr _ => ""

/-- Model of `String(v)`, the `v + ''` coercion. -/
def jsToString : JSVal → String
  | .jundefined => "undefined"
  | .jnull => "null"
  | .jbool b => cond b "true" "false"
  | .jnum q => ratToDisplay q
  | .jstr s => s
  | .jobj _ => "[object Object]"
  | .jarr xs => String.intercalate "," (xs.map primToString)

/-- Function `safeNum` from src/docs/app.js line 38 (identical to `toNum` in
src/unnamed/part_003 line 752): `undefined`, `null` and the empty string
map to `null`; otherwise `Number(v)` when finite, else `null`. -/
def safeNum (v : JSVal) : Option ℚ :=
  match v with
  | .jundefined => none
  | .jnull => none
  | .jstr "" => none
  | x => jsToNumber x

/-- Truncation toward zero, as the ECMAScript `%` operator uses. -/
def ratTrunc (q : ℚ) : ℤ := if q < 0 then ⌈q⌉ else ⌊q⌋

/-- The JavaScript remainder `a % b` on rationals (dividend sign,
truncating division).  `b = 0` never occurs in the modelled code. -/
def jsRem (a b : ℚ) : ℚ := a - b * (ratTrunc (a / b) : ℚ)

/-- The canonical output of `normalizeRecord` (src/docs/app.js lines
220-233).  `raw` and `geometry` carry the references the source stores;
`_comment` models the `_comment` property attached later by the comment UI
(absent, i.e. `undefined`, at creation). -/
structure NormFeature where
  id : String
  name : String
  lat : Option ℚ
  lon : Option ℚ
  diameter_m : Option ℚ
  spectral_mean : Option ℚ
  hydrogen_mean : Option ℚ
  depth_metric : Option ℚ
  psr_overlap : Option ℚ
  water_score : Option ℚ
  raw : JSVal
  geometry : JSVal
  _comment : Option String
deriving Inhabited

/-- The nested helper `extractLatLon` of `normalizeRecord` (src/docs/app.js
lines 169-184): explicit lat/lon-like properties first, then GeoJSON
`[lon, lat]` geometry coordinates for whichever side is still null, then
the pixel-style aliases. -/
def extractLatLon (props geom : JSVal) : Option ℚ × Option ℚ :=
  let lat1 := safeNum (coalesce [getField props "lat", getField props "latitude",
    getField props "Lat", getField props "center_lat"])
  let lon1 := safeNum (coalesce [getField props "lon", getField props "longitude",
    getField props "Long", getField props "center_lon"])
  let lat2 :=
    if (lat1.isNone || lon1.isNone) && truthy geom && isArr (getField geom "coordinates") then
      if lat1.isNone then safeNum (arrGet (getField geom "coordinates") 1) else lat1
    else lat1
  let lon2 :=
    if (lat1.isNone || lon1.isNone) && truthy geom && isArr (getField geom "coordinates") then
      if lon1.isNone then safeNum (arrGet (getField geom "coordinates") 0) else lon1
    else lon1
  if lat2.isNone || lon2.isNone then
    (if lat2.isNone then
        safeNum (coalesce [getField props "Y", getField props "y", getField props "pixel_y",
          getField props "PIXEL_Y", getField props "latitude_deg"])
      else lat2,
     if lon2.isNone then
        safeNum (coalesce [getField props "X", getField props "x", getField props "pixel_x",
          getField props "PIXEL_X", getField props "longitude_deg"])
      else lon2)
  else (lat2, lon2)

/-- Diameter resolution of `normalizeRecord` (src/docs/app.js lines
188-200): explicit meters field; else kilometers field times 1000; else the
generic diameter field with the magnitude heuristic (`d < 100` is read as
kilometers). -/
def resolveDiameter (props : JSVal) : Option ℚ :=
  match safeNum (coalesce [getField props "diameter_m", getField props "diam_m",
      getField props "DIAMETER_M"]) with
  | some d => some d
  | none =>
    match safeNum (coalesce [getField props "diameter_km", getField props "DIAMETER_KM"]) with
    | some km => some (km * 1000)
    | none =>
      match safeNum (coalesce [getField props "diameter", getField props "DIAMETER",
          getField props "diam"]) with
      | some d => some (if d < 100 then d * 1000 else d)
      | none => none

/-- The guard on src/docs/app.js line 156: `rec.type` truthy, its
lowercasing equal to the string feature, and `rec.properties` truthy.  Calling `toLowerCase` on a
truthy non-string `type` raises a TypeError, the one throwing path of the
normalizer; it is modelled with `Except.error`. -/
def recTypeCheck (rec : JSVal) : Except String Bool :=
  let t := getField rec "type"
  if truthy t then
    match t with
    | .jstr s => Except.ok (decide (s.data.map Char.toLower = "feature".data)
        && truthy (getField rec "properties"))
    | _ => Except.error "TypeError: rec.type.toLowerCase is not a function"
  else Except.ok false

/-- Function `normalizeRecord` (src/docs/app.js lines 151-234).  `tok` stands for
the random token `Math.random().toString(36).slice(2,9)` drawn when an id
must be synthesized; passing it as a parameter keeps the function pure.
Falsy input returns `null` (modelled `Option.none`); the copied `props`
object is read-only here, so `Object.assign` is modelled by reading fields
of the selected value directly. -/
def normalizeRecord (tok : String) (rec : JSVal) : Except String (Option NormFeature) :=
  if truthy rec = false then Except.ok none
  else
    match recTypeCheck rec with
    | Except.error e => Except.error e
    | Except.ok isFeat =>
      let flatProps := truthy (getField rec "properties") && truthy (getField rec "geometry")
      let props := if isFeat then getField rec "properties"
        else if flatProps then getField rec "properties"
        else rec
      let geom := if isFeat then getField rec "geometry"
        else if flatProps then getField rec "geometry"
        else jsOr (getField rec "geometry") JSVal.jnull
      let ll := extractLatLon props geom
      let spectral := safeNum (coalesce [getField props "spectral_mean", getField props "spec",
        getField props "m3", getField props "SPECTRAL_MEAN"])
      let hydrogen := safeNum (coalesce [getField props "hydrogen_mean", getField props "hydro",
        getField props "hydrogen", getField props "HYDROGEN_MEAN"])
      let depth := safeNum (coalesce [getField props "depth_metric", getField props "depth",
        getField props "DEPTH_METRIC"])
      let psr := match getField props "psr_overlap" with
        | .jbool true => some 1
        | .jbool false => some 0
        | _ => safeNum (coalesce [getField props "psr_overlap", getField props "PSR_OVERLAP"])
      let water := safeNum (coalesce [getField props "water_score", getField props "score",
        getField props "WATER_SCORE"])
      let idStr := jsToString (coalesce [getField props "id", getField props "ID",
        getField props "CRATER_ID", getField props "name", getField props "NAME"])
      let nameStr := jsToString (coalesce [getField props "name", getField props "NAME",
        JSVal.jstr idStr])
      Except.ok (some
        { id := if idStr = "" then "f_" ++ tok else idStr
          name := if nameStr = "" then "Unnamed" else nameStr
          lat := ll.1
          lon := ll.2
          diameter_m := resolveDiameter props
          spectral_mean := spectral
          hydrogen_mean := hydrogen
          depth_metric := depth
          psr_overlap := psr
          water_score := water
          raw := rec
          geometry := geom
          _comment := none })

/-- Successful normalization as an `Option` (the non-throwing view used to
state claims). -/
def normOut (tok : String) (rec : JSVal) : Option NormFeature :=
  match normalizeRecord tok rec with
  | Except.ok o => o
  | Except.error _ => none

/-- Whether the normalizer returned (rather than threw). -/
def isOkB (e : Except String (Option NormFeature)) : Bool :=
  match e with
  | Except.ok _ => true
  | Except.error _ => false

/-- Fold for `Math.min(...values)` over a nonempty list (the empty case is guarded
in the source before the fold). -/
def listMin : List ℚ → ℚ
  | [] => 0
  | x :: xs => xs.foldl min x

/-- Fold for `Math.max(...values)` over a nonempty list. -/
def listMax : List ℚ → ℚ
  | [] => 0
  | x :: xs => xs.foldl max x

/-- Function `makeNorm` (src/docs/app.js lines 264-268): with no observed values the
normalizer is constantly 0; otherwise nulls map to 0 and a value `v` maps
to `(v - min) / span` with `span = (max - min) || 1`.  Note the source does
not clamp. -/
def makeNorm (values : List ℚ) (v : Option ℚ) : ℚ :=
  if values.isEmpty then 0
  else
    match v with
    | none => 0
    | some x =>
      (x - listMin values) /
        (if listMax values - listMin values = 0 then 1 else listMax values - listMin values)

/-- The four batch value collections of `computeFallbackScores`
(src/docs/app.js lines 259-262): each measurement, filtered to non-null. -/
def specValues (arr : List NormFeature) : List ℚ := arr.filterMap (fun f => f.spectral_mean)

/-- Non-null hydrogen values of the batch. -/
def hydValues (arr : List NormFeature) : List ℚ := arr.filterMap (fun f => f.hydrogen_mean)

/-- Non-null depth values of the batch. -/
def depValues (arr : List NormFeature) : List ℚ := arr.filterMap (fun f => f.depth_metric)

/-- Non-null PSR-overlap values of the batch. -/
def psrValues (arr : List NormFeature) : List ℚ := arr.filterMap (fun f => f.psr_overlap)

/-- Rounding `Number(score.toFixed(6))`: round to six decimal places, ties away
from zero toward plus infinity (the ECMAScript `toFixed` tie rule). -/
def round6 (q : ℚ) : ℚ := ((⌊q * 1000000 + 1 / 2⌋ : ℤ) : ℚ) / 1000000

/-- The per-feature weighted score of `computeFallbackScores`
(src/docs/app.js lines 276-284): copy the default weights
`psr 0.35, hydrogen 0.30, spectral 0.30, depth 0.05`, zero the weight of
every component that is null on this feature, divide by the total
(`|| 1` when all are zero), and form the weighted sum of the normalized
component values. -/
def scoreFeature (arr : List NormFeature) (f : NormFeature) : ℚ :=
  let np := makeNorm (psrValues arr) f.psr_overlap
  let nh := makeNorm (hydValues arr) f.hydrogen_mean
  let ns := makeNorm (specValues arr) f.spectral_mean
  let nd := makeNorm (depValues arr) f.depth_metric
  let wp : ℚ := if f.psr_overlap = none then 0 else 35 / 100
  let wh : ℚ := if f.hydrogen_mean = none then 0 else 30 / 100
  let ws : ℚ := if f.spectral_mean = none then 0 else 30 / 100
  let wd : ℚ := if f.depth_metric = none then 0 else 5 / 100
  let total : ℚ := if wp + wh + ws + wd = 0 then 1 else wp + wh + ws + wd
  (wp / total) * np + (wh / total) * nh + (ws / total) * ns + (wd / total) * nd

/-- Update of one feature in `computeFallbackScores` (src/docs/app.js lines
274-286): a feature with a precomputed score is kept; otherwise the score
is the rounded weighted sum (always a finite rational here, so the
`Number.isFinite` guard of line 285 always takes its first branch). -/
def scoreStep (arr : List NormFeature) (f : NormFeature) : NormFeature :=
  match f.water_score with
  | some _ => f
  | none => { f with water_score := some (round6 (scoreFeature arr f)) }

/-- Function `computeFallbackScores` (src/docs/app.js lines 257-287); the in-place
mutation of the batch array is modelled as a map. -/
def computeFallbackScores (arr : List NormFeature) : List NormFeature :=
  arr.map (scoreStep arr)

/-- A blank feature for building concrete test batches. -/
def blankFeature : NormFeature :=
  { id := "f", name := "f", lat := none, lon := none, diameter_m := none,
    spectral_mean := none, hydrogen_mean := none, depth_metric := none,
    psr_overlap := none, water_score := none, raw := JSVal.jnull,
    geometry := JSVal.jnull, _comment := none }

/-- A persisted annotation entry as created by `addAnnotation`
(src/docs/app.js line 460): id and name come from the feature (strings
after normalization), coordinates are the non-null feature coordinates,
`water_score` is `feature.water_score || null` (so a zero score is stored
as null), `ts` is the creation timestamp string, and `comment` is
`feature._comment || null`. -/
structure Annot where
  id : String
  name : String
  lat : ℚ
  lon : ℚ
  water_score : Option ℚ
  ts : String
  comment : Option String
deriving Inhabited

/-- The stored score `feature.water_score || null`: a zero (falsy) score
is stored as null. -/
def annToNullable (q : Option ℚ) : Option ℚ :=
  match q with
  | some x => if x = 0 then none else some x
  | none => none

/-- The stored comment `feature._comment || null`. -/
def commentToNullable (c : Option String) : Option String :=
  match c with
  | some s => if s = "" then none else some s
  | none => none

/-- Whether the store already holds an annotation matching the feature id
(the `find` predicate of src/docs/app.js line 459). -/
def annotDup (f : NormFeature) (anns : List Annot) : Bool :=
  anns.any (fun a => (a.id != "") && (f.id != "") && (a.id == f.id))

/-- The entry object `ent` built by `addAnnotation` (src/docs/app.js line
460). -/
def annotEntry (now : String) (f : NormFeature) (la lo : ℚ) : Annot :=
  { id := f.id, name := f.name, lat := la, lon := lo,
    water_score := annToNullable f.water_score, ts := now,
    comment := commentToNullable f._comment }

/-- Function addAnnotation (src/docs/app.js lines 456-461), acting on the
persisted list: features missing either coordinate are rejected, a
duplicate id leaves the store unchanged, otherwise the new entry is
appended.  `now` is the `new Date().toISOString()` timestamp. -/
def addAnnot (now : String) (f : NormFeature) (anns : List Annot) : List Annot :=
  match f.lat, f.lon with
  | some la, some lo =>
    if annotDup f anns then anns
    else anns ++ [annotEntry now f la lo]
  | _, _ => anns

/-- Exported GeoJSON `properties` (src/docs/app.js line 487). -/
structure ExpProps where
  id : String
  name : String
  water_score : Option ℚ
  ts : String
  comment : Option String
deriving Inhabited

/-- Exported GeoJSON point geometry. -/
structure ExpGeom where
  type : String
  coordinates : List ℚ
deriving Inhabited

/-- One exported GeoJSON feature. -/
structure ExpFeat where
  type : String
  properties : ExpProps
  geometry : ExpGeom
deriving Inhabited

/-- The exported `FeatureCollection`. -/
structure FeatColl where
  type : String
  features : List ExpFeat
deriving Inhabited

/-- The per-annotation GeoJSON feature built by the `anns.map` closure of
`exportAnnotations` (src/docs/app.js line 487). -/
def exportFeature (a : Annot) : ExpFeat :=
  { type := "Feature"
    properties := { id := a.id, name := a.name, water_score := a.water_score,
                    ts := a.ts, comment := a.comment }
    geometry := { type := "Point", coordinates := [a.lon, a.lat] } }

/-- The pure core of `exportAnnotations` (src/docs/app.js lines 485-492):
the construction of the FeatureCollection object `fc`; the blob/download
steps that follow are browser I/O outside the data model. -/
def exportAnnotations (anns : List Annot) : FeatColl :=
  { type := "FeatureCollection"
    features := anns.map exportFeature }

/-- The exported feature at an index (observation helper for the export
claims). -/
def exportFeatAt (anns : List Annot) (i : ℕ) : ExpFeat :=
  (exportAnnotations anns).features.getD i default

namespace Part003

/-- Function `toNum` from src/unnamed/part_003 line 752; it has exactly the body of
`safeNum` in src/docs/app.js. -/
def toNum (v : JSVal) : Option ℚ :=
  match v with
  | .jundefined => none
  | .jnull => none
  | .jstr "" => none
  | x => jsToNumber x

/-- The selection `const props = f.properties || f` (src/unnamed/part_003 line 705).
The source copies `props` into `out` and then mutates `out`; the embedding
reads the copied fields and returns the assigned canonical fields (the
pass-through of the remaining raw keys is not observed by any claim). -/
def propsOf (f : JSVal) : JSVal := jsOr (getField f "properties") f

/-- Output record of `normalizeFeature` (src/unnamed/part_003 lines
703-751), restricted to the fields the function assigns.  `name` keeps its
raw JavaScript value (`out.name || out.id`), `water_score` is never null
(`?? 0`), `psr_overlap` is the boolean coercion the source applies. -/
structure Feature3 where
  lat : Option ℚ
  lon : Option ℚ
  diameter_m : Option ℚ
  id : String
  name : JSVal
  water_score : ℚ
  psr_overlap : Bool
  spectral_mean : Option ℚ
  hydrogen_mean : Option ℚ
  depth_metric : Option ℚ
  x : JSVal
  y : JSVal

/-- Coordinate detection of `normalizeFeature` (src/unnamed/part_003 lines
708-719), before the longitude wrap: alias chains first; then, when either
side is null and a GeoJSON geometry with a coordinate array of length at
least two is present, both coordinates are (re)read from it in
`[lon, lat]` order. -/
def resolveLatLon (f : JSVal) : Option ℚ × Option ℚ :=
  let out := propsOf f
  let lat := toNum (coalesce [getField out "lat", getField out "latitude",
    getField out "y", getField out "pixel_y"])
  let lon := toNum (coalesce [getField out "lon", getField out "longitude",
    getField out "x", getField out "pixel_x"])
  if (lat.isNone || lon.isNone) && truthy (getField f "geometry")
      && isArr (getField (getField f "geometry") "coordinates") then
    let cc := arrElems (getField (getField f "geometry") "coordinates")
    if 2 ≤ cc.length then (toNum (cc.getD 1 JSVal.jundefined), toNum (cc.getD 0 JSVal.jundefined))
    else (lat, lon)
  else (lat, lon)

/-- The longitude wrap of src/unnamed/part_003 line 722:
`if (lon != null && lon > 180) lon = ((lon + 180) % 360) - 180`. -/
def wrapLon (lon : Option ℚ) : Option ℚ :=
  match lon with
  | some l => if 180 < l then some (jsRem (l + 180) 360 - 180) else some l
  | none => none

/-- Diameter logic of src/unnamed/part_003 lines 724-732: the first chain
mixes the meters field with the generic fields, and the `(0, 100)` km
heuristic is applied to whatever that chain produced. -/
def resolveDiam (out : JSVal) : Option ℚ :=
  match toNum (coalesce [getField out "diameter_m", getField out "diameter",
      getField out "diam", getField out "DIAM_CIRC_IMG", getField out "DIAM_ELLI_MAJOR_IMG"]) with
  | none =>
    match toNum (coalesce [getField out "diameter_km", getField out "diam_km"]) with
    | some k => some (k * 1000)
    | none => none
  | some d => some (if 0 < d ∧ d < 100 then d * 1000 else d)

/-- Function `normalizeFeature` (src/unnamed/part_003 lines 703-751).  A nullish
argument throws (`f.properties` on `null`/`undefined`); `tok` is the
random token drawn for a synthesized id. -/
def normalizeFeature (tok : String) (f : JSVal) : Except String Feature3 :=
  if isNullish f then Except.error "TypeError: cannot read properties of nullish value"
  else
    let out := propsOf f
    let ll := resolveLatLon f
    let id := if isUndef (getField out "id") = false then jsToString (getField out "id")
      else if truthy (getField out "CRATER_ID") then jsToString (getField out "CRATER_ID")
      else if truthy (getField out "name") then jsToString (getField out "name")
      else "f_" ++ tok
    Except.ok
      { lat := ll.1
        lon := wrapLon ll.2
        diameter_m := resolveDiam out
        id := id
        name := if truthy (getField out "name") then getField out "name" else JSVal.jstr id
        water_score := (toNum (coalesce [getField out "water_score", getField out "score",
          getField out "waterScore"])).getD 0
        psr_overlap := if isUndef (getField out "psr_overlap") = false
          then truthy (getField out "psr_overlap") else truthy (getField out "psr")
        spectral_mean := if isUndef (getField out "spectral_mean") = false
          then toNum (getField out "spectral_mean") else none
        hydrogen_mean := if isUndef (getField out "hydrogen_mean") = false
          then toNum (getField out "hydrogen_mean") else none
        depth_metric := if isUndef (getField out "depth_metric") = false
          then toNum (getField out "depth_metric") else none
        x := coalesce [getField out "x", getField out "pixel_x", getField out "col", JSVal.jnull]
        y := coalesce [getField out "y", getField out "pixel_y", getField out "row", JSVal.jnull] }

/-- Successful normalization as an `Option`. -/
def normOut3 (tok : String) (f : JSVal) : Option Feature3 :=
  match normalizeFeature tok f with
  | Except.ok o => some o
  | Except.error _ => none

end Part003

/-- Concrete two-feature spectral-only batch. -/
def C1demo : List NormFeature :=
  [{ blankFeature with spectral_mean := some 0 },
   { blankFeature with spectral_mean := some 2 }]

/-- Concrete spectral-only batch whose middle normalized value 1/3 is not
representable in six decimal places. -/
def C1cex : List NormFeature :=
  [{ blankFeature with spectral_mean := some 0 },
   { blankFeature with spectral_mean := some 1 },
   { blankFeature with spectral_mean := some 3 }]

/-- Concrete batch with a supplied out-of-range score. -/
def C2cex : List NormFeature := [{ blankFeature with water_score := some 5 }]

/-- Concrete record with out-of-range longitude 200. -/
def C3rec : JSVal := JSVal.jobj [("lon", JSVal.jnum 200), ("lat", JSVal.jnum 10)]

/-- Concrete record supplying only a latitude. -/
def C5rec : JSVal := JSVal.jobj [("lat", JSVal.jnum 10)]

/-- Concrete feature with an empty-string id (and coordinates). -/
def C9feat : NormFeature :=
  { blankFeature with id := "", name := "x", lat := some 0, lon := some 0 }

/-- Concrete feature with a proper id. -/
def C9ok : NormFeature :=
  { blankFeature with id := "a", name := "n", lat := some 1, lon := some 2 }

/-- Concrete record whose `type` field is the number 1. -/
def C6rec : JSVal := JSVal.jobj [("type", JSVal.jnum 1)]

/-- The end-to-end GeoJSON record of scenario B. -/
def C7rec : JSVal :=
  JSVal.jobj [("type", JSVal.jstr "Feature"),
    ("properties", JSVal.jobj [("name", JSVal.jstr "Shackleton")]),
    ("geometry", JSVal.jobj [("type", JSVal.jstr "Point"),
      ("coordinates", JSVal.jarr [JSVal.jnum (-45), JSVal.jnum (-(899 / 10))])])]

/-- The record with no id-like or name-like field at all. -/
def C8empty : JSVal := JSVal.jobj []

/-- A concrete one-annotation store. -/
def C10demo : List Annot :=
  [{ id := "a1", name := "n", lat := 1, lon := 2, water_score := some (1 / 2),
     ts := "2020-01-01T00:00:00Z", comment := some "ok" }]

lemma foldl_min_le_init (xs : List ℚ) (a : ℚ) : xs.foldl min a ≤ a := by
  induction xs generalizing a with
  | nil => simp
  | cons b bs ih => exact le_trans (ih (min a b)) (min_le_left a b)

lemma foldl_min_le_mem {xs : List ℚ} {x : ℚ} (hx : x ∈ xs) (a : ℚ) : xs.foldl min a ≤ x := by
  induction xs generalizing a with
  | nil => cases hx
  | cons b bs ih =>
    rcases List.mem_cons.1 hx with h | h
    · subst h
      exact le_trans (foldl_min_le_init bs (min a x)) (min_le_right a x)
    · exact ih h (min a b)

lemma listMin_le {l : List ℚ} {x : ℚ} (hx : x ∈ l) : listMin l ≤ x := by
  cases l with
  | nil => cases hx
  | cons a as =>
    rcases List.mem_cons.1 hx with h | h
    · subst h; exact foldl_min_le_init as x
    · exact foldl_min_le_mem h a

lemma le_foldl_max_init (xs : List ℚ) (a : ℚ) : a ≤ xs.foldl max a := by
  induction xs generalizing a with
  | nil => simp
  | cons b bs ih => exact le_trans (le_max_left a b) (ih (max a b))

lemma le_foldl_max_mem {xs : List ℚ} {x : ℚ} (hx : x ∈ xs) (a : ℚ) : x ≤ xs.foldl max a := by
  induction xs generalizing a with
  | nil => cases hx
  | cons b bs ih =>
    rcases List.mem_cons.1 hx with h | h
    · subst h
      exact le_trans (le_max_right a x) (le_foldl_max_init bs (max a x))
    · exact ih h (max a b)

lemma le_listMax {l : List ℚ} {x : ℚ} (hx : x ∈ l) : x ≤ listMax l := by
  cases l with
  | nil => cases hx
  | cons a as =>
    rcases List.mem_cons.1 hx with h | h
    · subst h; exact le_foldl_max_init as x
    · exact le_foldl_max_mem h a

lemma makeNorm_bounds (values : List ℚ) (v : Option ℚ)
    (hmem : ∀ x, v = some x → x ∈ values) :
    0 ≤ makeNorm values v ∧ makeNorm values v ≤ 1 := by
  by_cases he : values.isEmpty
  · simp [makeNorm, he]
  · cases v with
    | none => simp [makeNorm, he]
    | some x =>
      have hx : x ∈ values := hmem x rfl
      have hmn : listMin values ≤ x := listMin_le hx
      have hmx : x ≤ listMax values := le_listMax hx
      by_cases h0 : listMax values - listMin values = 0
      · constructor
        · simp only [makeNorm, he, if_neg, h0, if_pos]
          simp only [Bool.false_eq_true, if_false]
          have : x - listMin values ≤ 0 := by linarith
          have hx0 : x - listMin values = 0 := le_antisymm this (by linarith)
          rw [hx0]; norm_num
        · simp only [makeNorm, he, h0, if_pos]
          simp only [Bool.false_eq_true, if_false]
          have hx0 : x - listMin values = 0 := le_antisymm (by linarith) (by linarith)
          rw [hx0]; norm_num
      · have hpos : 0 < listMax values - listMin values :=
          lt_of_le_of_ne (by linarith) (Ne.symm h0)
        constructor
        · simp only [makeNorm, he, h0, if_neg]
          simp only [Bool.false_eq_true, if_false]
          exact div_nonneg (by linarith) (by linarith)
        · simp only [makeNorm, he, h0, if_neg]
          simp only [Bool.false_eq_true, if_false]
          rw [div_le_one hpos]
          linarith

lemma round6_nonneg {q : ℚ} (hq : 0 ≤ q) : 0 ≤ round6 q := by
  unfold round6
  have h1 : (0 : ℤ) ≤ ⌊q * 1000000 + 1 / 2⌋ := by
    rw [Int.le_floor]
    push_cast
    nlinarith
  have h2 : (0 : ℚ) ≤ ((⌊q * 1000000 + 1 / 2⌋ : ℤ) : ℚ) := by exact_mod_cast h1
  positivity

lemma round6_le_one {q : ℚ} (hq : q ≤ 1) : round6 q ≤ 1 := by
  unfold round6
  have h1 : ⌊q * 1000000 + 1 / 2⌋ ≤ (1000000 : ℤ) := by
    rw [Int.floor_le_iff]
    push_cast
    nlinarith
  have h2 : ((⌊q * 1000000 + 1 / 2⌋ : ℤ) : ℚ) ≤ 1000000 := by exact_mod_cast h1
  rw [div_le_one (by norm_num)]
  exact h2

lemma weighted_core_bounds (np nh ns nd wp wh ws wd total : ℚ)
    (hnp0 : 0 ≤ np) (hnp1 : np ≤ 1) (hnh0 : 0 ≤ nh) (hnh1 : nh ≤ 1)
    (hns0 : 0 ≤ ns) (hns1 : ns ≤ 1) (hnd0 : 0 ≤ nd) (hnd1 : nd ≤ 1)
    (hwp : 0 ≤ wp) (hwh : 0 ≤ wh) (hws : 0 ≤ ws) (hwd : 0 ≤ wd)
    (htot : 0 < total) (hsum : wp + wh + ws + wd ≤ total) :
    0 ≤ (wp / total) * np + (wh / total) * nh + (ws / total) * ns + (wd / total) * nd ∧
      (wp / total) * np + (wh / total) * nh + (ws / total) * ns + (wd / total) * nd ≤ 1 := by
  have dp : 0 ≤ wp / total := div_nonneg hwp htot.le
  have dh : 0 ≤ wh / total := div_nonneg hwh htot.le
  have ds : 0 ≤ ws / total := div_nonneg hws htot.le
  have dd : 0 ≤ wd / total := div_nonneg hwd htot.le
  have h1 : (wp / total) * np ≤ wp / total := mul_le_of_le_one_right dp hnp1
  have h2 : (wh / total) * nh ≤ wh / total := mul_le_of_le_one_right dh hnh1
  have h3 : (ws / total) * ns ≤ ws / total := mul_le_of_le_one_right ds hns1
  have h4 : (wd / total) * nd ≤ wd / total := mul_le_of_le_one_right dd hnd1
  have hsumdiv : wp / total + wh / total + ws / total + wd / total ≤ 1 := by
    have hdiv : (wp + wh + ws + wd) / total ≤ 1 := (div_le_one htot).2 hsum
    calc wp / total + wh / total + ws / total + wd / total
        = (wp + wh + ws + wd) / total := by ring
      _ ≤ 1 := hdiv
  constructor
  · have e1 := mul_nonneg dp hnp0
    have e2 := mul_nonneg dh hnh0
    have e3 := mul_nonneg ds hns0
    have e4 := mul_nonneg dd hnd0
    linarith
  · linarith

lemma mem_specValues {arr : List NormFeature} {f : NormFeature} (hf : f ∈ arr) :
    ∀ x, f.spectral_mean = some x → x ∈ specValues arr := by
  intro x hx
  exact List.mem_filterMap.2 ⟨f, hf, hx⟩

lemma mem_hydValues {arr : List NormFeature} {f : NormFeature} (hf : f ∈ arr) :
    ∀ x, f.hydrogen_mean = some x → x ∈ hydValues arr := by
  intro x hx
  exact List.mem_filterMap.2 ⟨f, hf, hx⟩

lemma mem_depValues {arr : List NormFeature} {f : NormFeature} (hf : f ∈ arr) :
    ∀ x, f.depth_metric = some x → x ∈ depValues arr := by
  intro x hx
  exact List.mem_filterMap.2 ⟨f, hf, hx⟩

lemma mem_psrValues {arr : List NormFeature} {f : NormFeature} (hf : f ∈ arr) :
    ∀ x, f.psr_overlap = some x → x ∈ psrValues arr := by
  intro x hx
  exact List.mem_filterMap.2 ⟨f, hf, hx⟩

lemma scoreFeature_bounds (arr : List NormFeature) (f : NormFeature) (hf : f ∈ arr) :
    0 ≤ scoreFeature arr f ∧ scoreFeature arr f ≤ 1 := by
  have hnp := makeNorm_bounds (psrValues arr) f.psr_overlap (mem_psrValues hf)
  have hnh := makeNorm_bounds (hydValues arr) f.hydrogen_mean (mem_hydValues hf)
  have hns := makeNorm_bounds (specValues arr) f.spectral_mean (mem_specValues hf)
  have hnd := makeNorm_bounds (depValues arr) f.depth_metric (mem_depValues hf)
  have hwp : (0 : ℚ) ≤ if f.psr_overlap = none then 0 else 35 / 100 := by
    split <;> norm_num
  have hwh : (0 : ℚ) ≤ if f.hydrogen_mean = none then 0 else 30 / 100 := by
    split <;> norm_num
  have hws : (0 : ℚ) ≤ if f.spectral_mean = none then 0 else 30 / 100 := by
    split <;> norm_num
  have hwd : (0 : ℚ) ≤ if f.depth_metric = none then 0 else 5 / 100 := by
    split <;> norm_num
  unfold scoreFeature
  set wp : ℚ := if f.psr_overlap = none then 0 else 35 / 100 with hwpdef
  set wh : ℚ := if f.hydrogen_mean = none then 0 else 30 / 100 with hwhdef
  set ws : ℚ := if f.spectral_mean = none then 0 else 30 / 100 with hwsdef
  set wd : ℚ := if f.depth_metric = none then 0 else 5 / 100 with hwddef
  by_cases hz : wp + wh + ws + wd = 0
  · have htot : (0 : ℚ) < (if wp + wh + ws + wd = 0 then (1 : ℚ) else wp + wh + ws + wd) := by
      rw [if_pos hz]; norm_num
    have hsum : wp + wh + ws + wd ≤
        (if wp + wh + ws + wd = 0 then (1 : ℚ) else wp + wh + ws + wd) := by
      rw [if_pos hz, hz]; norm_num
    exact weighted_core_bounds _ _ _ _ _ _ _ _ _
      hnp.1 hnp.2 hnh.1 hnh.2 hns.1 hns.2 hnd.1 hnd.2 hwp hwh hws hwd htot hsum
  · have hzpos : (0 : ℚ) < wp + wh + ws + wd :=
      lt_of_le_of_ne (by linarith) (Ne.symm hz)
    have htot : (0 : ℚ) < (if wp + wh + ws + wd = 0 then (1 : ℚ) else wp + wh + ws + wd) := by
      rw [if_neg hz]; exact hzpos
    have hsum : wp + wh + ws + wd ≤
        (if wp + wh + ws + wd = 0 then (1 : ℚ) else wp + wh + ws + wd) := by
      rw [if_neg hz]
    exact weighted_core_bounds _ _ _ _ _ _ _ _ _
      hnp.1 hnp.2 hnh.1 hnh.2 hns.1 hns.2 hnd.1 hnd.2 hwp hwh hws hwd htot hsum

lemma getD_map_of_lt {α β : Type} [Inhabited β] (g : α → β) (l : List α) (i : ℕ)
    (h : i < l.length) : (l.map g).getD i default = g (l.get ⟨i, h⟩) := by
  simp [List.getD_eq_getElem?_getD, List.getElem?_map, List.getElem?_eq_getElem h]

lemma getD_self_of_lt {α : Type} [Inhabited α] (l : List α) (i : ℕ)
    (h : i < l.length) : l.getD i default = l.get ⟨i, h⟩ := by
  simp [List.getD_eq_getElem?_getD, List.getElem?_eq_getElem h]

lemma makeNorm_none (values : List ℚ) : makeNorm values none = 0 := by
  by_cases h : values.isEmpty <;> simp [makeNorm, h]

/-- C1 (amended): in a batch where every feature has only `spectralMean`
populated (the other three measurements null throughout) and no supplied
`waterScore`, `computeFallbackScores` gives every feature the six-decimal
rounding of its min-max normalized spectral value — the spectral weight is
renormalized to 1.0, not left at 0.30. -/
theorem C1_spectral_only (arr : List NormFeature)
    (H : ∀ f ∈ arr, f.spectral_mean ≠ none ∧ f.psr_overlap = none ∧
      f.hydrogen_mean = none ∧ f.depth_metric = none ∧ f.water_score = none)
    (i : ℕ) (h : i < arr.length) :
    ((computeFallbackScores arr).getD i default).water_score
      = some (round6 (makeNorm (specValues arr) ((arr.getD i default).spectral_mean))) := by
  obtain ⟨hs, hp, hh, hd, hw⟩ := H (arr.get ⟨i, h⟩) (arr.get_mem i h)
  rw [computeFallbackScores, getD_map_of_lt _ _ _ h, getD_self_of_lt _ _ h]
  simp only [scoreStep, hw]
  have hscore : scoreFeature arr (arr.get ⟨i, h⟩)
      = makeNorm (specValues arr) (arr.get ⟨i, h⟩).spectral_mean := by
    simp only [scoreFeature, hp, hh, hd, makeNorm_none]
    rw [if_neg hs]
    norm_num
  rw [hscore]

/-- Witness for C1 at the concrete two-feature batch. -/
theorem C1_witness :
    ((computeFallbackScores C1demo).getD 1 default).water_score
      = some (round6 (makeNorm (specValues C1demo) ((C1demo.getD 1 default).spectral_mean))) :=
  C1_spectral_only C1demo (by decide) 1 (by decide)

/-- Counterexample to C1 as stated: in the batch with spectral values
0, 1, 3 the stored score of the middle feature is 0.333333, not the exact
normalized value 1/3 — the source rounds through `toFixed(6)`. -/
theorem C1_counterexample :
    ((computeFallbackScores C1cex).getD 1 default).water_score
      ≠ some (makeNorm (specValues C1cex) ((C1cex.getD 1 default).spectral_mean)) := by
  decide

/-- C2 (amended): after `computeFallbackScores` every feature has a
non-null `waterScore`; every feature whose score was computed (input score
null) has it in [0, 1]; a feature whose score was supplied keeps it
verbatim — which may lie outside [0, 1]. -/
theorem C2_range (arr : List NormFeature) (i : ℕ) (h : i < arr.length) :
    (∃ q, ((computeFallbackScores arr).getD i default).water_score = some q) ∧
    ((arr.getD i default).water_score = none →
      ∃ q, ((computeFallbackScores arr).getD i default).water_score = some q ∧
        0 ≤ q ∧ q ≤ 1) ∧
    (∀ q, (arr.getD i default).water_score = some q →
      ((computeFallbackScores arr).getD i default).water_score = some q) := by
  rw [computeFallbackScores, getD_map_of_lt _ _ _ h, getD_self_of_lt _ _ h]
  set f := arr.get ⟨i, h⟩ with hf
  have hmem : f ∈ arr := by rw [hf]; exact arr.get_mem i h
  cases hws : f.water_score with
  | none =>
    refine ⟨⟨round6 (scoreFeature arr f), ?_⟩, fun _ => ?_, fun q hq => ?_⟩
    · simp [scoreStep, hws]
    · refine ⟨round6 (scoreFeature arr f), by simp [scoreStep, hws], ?_, ?_⟩
      · exact round6_nonneg (scoreFeature_bounds arr f hmem).1
      · exact round6_le_one (scoreFeature_bounds arr f hmem).2
    · cases hq
  | some q0 =>
    refine ⟨⟨q0, ?_⟩, fun hnone => ?_, fun q hq => ?_⟩
    · simp [scoreStep, hws]
    · cases hnone
    · cases hq
      simp [scoreStep, hws]

/-- Witness for C2 at a singleton batch with no measurements at all. -/
theorem C2_witness :
    (∃ q, ((computeFallbackScores [blankFeature]).getD 0 default).water_score = some q) ∧
    (([blankFeature].getD 0 default).water_score = none →
      ∃ q, ((computeFallbackScores [blankFeature]).getD 0 default).water_score = some q ∧
        0 ≤ q ∧ q ≤ 1) ∧
    (∀ q, ([blankFeature].getD 0 default).water_score = some q →
      ((computeFallbackScores [blankFeature]).getD 0 default).water_score = some q) :=
  C2_range [blankFeature] 0 (by decide)

/-- Counterexample to C2 as stated: a feature whose input supplied
`waterScore = 5` still has score 5 after the batch step, so the claimed
range invariant fails for verbatim-supplied scores. -/
theorem C2_counterexample :
    ((computeFallbackScores C2cex).getD 0 default).water_score = some 5 ∧
      ¬ ((5 : ℚ) ≤ 1) := by decide

lemma safeNum_jnum (q : ℚ) : safeNum (JSVal.jnum q) = some q := rfl

lemma jsRem_bounds (a : ℚ) (ha : 0 ≤ a) : 0 ≤ jsRem a 360 ∧ jsRem a 360 < 360 := by
  unfold jsRem ratTrunc
  have hdiv : ¬ (a / 360 < 0) := by
    push_neg
    positivity
  rw [if_neg hdiv]
  have h1 : ((⌊a / 360⌋ : ℤ) : ℚ) ≤ a / 360 := Int.floor_le _
  have h2 : a / 360 < (⌊a / 360⌋ : ℤ) + 1 := Int.lt_floor_add_one _
  constructor <;> nlinarith [h1, h2]

lemma normalizeFeature_ok_lon (tok : String) (f : JSVal) (hnn : isNullish f = false) :
    ∃ out, Part003.normalizeFeature tok f = Except.ok out ∧
      out.lon = Part003.wrapLon (Part003.resolveLatLon f).2 := by
  rw [Part003.normalizeFeature, if_neg (by simp [hnn])]
  exact ⟨_, rfl, rfl⟩

/-- C3: whenever the resolved longitude exceeds 180, the part_003
normalizer stores `((lon + 180) % 360) - 180`, a value in [-180, 180];
in particular a record with lon 200 and lat 10 normalizes to lon -160. -/
theorem C3_lon_wrap :
    (∀ (tok : String) (f : JSVal) (l : ℚ), isNullish f = false →
      (Part003.resolveLatLon f).2 = some l → 180 < l →
      ∃ out, Part003.normalizeFeature tok f = Except.ok out ∧
        out.lon = some (jsRem (l + 180) 360 - 180) ∧
        -180 ≤ jsRem (l + 180) 360 - 180 ∧ jsRem (l + 180) 360 - 180 ≤ 180) ∧
    (Part003.normOut3 "t" C3rec).map Part003.Feature3.lon = some (some (-160)) := by
  constructor
  · intro tok f l hnn hl hgt
    obtain ⟨out, hok, hlon⟩ := normalizeFeature_ok_lon tok f hnn
    have hb := jsRem_bounds (l + 180) (by linarith)
    refine ⟨out, hok, ?_, by linarith [hb.1], by linarith [hb.2]⟩
    rw [hlon, hl]
    simp only [Part003.wrapLon]
    rw [if_pos hgt]
  · decide

/-- Witness for C3 at the concrete record (resolved longitude 200). -/
theorem C3_witness :
    ∃ out, Part003.normalizeFeature "t" C3rec = Except.ok out ∧
      out.lon = some (jsRem ((200 : ℚ) + 180) 360 - 180) ∧
      -180 ≤ jsRem ((200 : ℚ) + 180) 360 - 180 ∧ jsRem ((200 : ℚ) + 180) 360 - 180 ≤ 180 :=
  C3_lon_wrap.1 "t" C3rec 200 (by decide) (by decide) (by decide)

/-- C4: diameter resolution order in `normalizeRecord`: an explicit meters
field is used as-is; else a kilometers field is multiplied by 1000; else
the generic diameter field is disambiguated by magnitude, with values in
(0, 100) times 1000 and values at least 100 kept as meters; in particular
`{diameter: 5}` gives 5000 and `{diameter: 5000}` gives 5000. -/
theorem C4_diameter :
    (∀ (p : JSVal) (d : ℚ),
      safeNum (coalesce [getField p "diameter_m", getField p "diam_m",
        getField p "DIAMETER_M"]) = some d → resolveDiameter p = some d) ∧
    (∀ (p : JSVal) (k : ℚ),
      safeNum (coalesce [getField p "diameter_m", getField p "diam_m",
        getField p "DIAMETER_M"]) = none →
      safeNum (coalesce [getField p "diameter_km", getField p "DIAMETER_KM"]) = some k →
      resolveDiameter p = some (k * 1000)) ∧
    (∀ (p : JSVal) (d : ℚ),
      safeNum (coalesce [getField p "diameter_m", getField p "diam_m",
        getField p "DIAMETER_M"]) = none →
      safeNum (coalesce [getField p "diameter_km", getField p "DIAMETER_KM"]) = none →
      safeNum (coalesce [getField p "diameter", getField p "DIAMETER",
        getField p "diam"]) = some d →
      0 < d → d < 100 → resolveDiameter p = some (d * 1000)) ∧
    (∀ (p : JSVal) (d : ℚ),
      safeNum (coalesce [getField p "diameter_m", getField p "diam_m",
        getField p "DIAMETER_M"]) = none →
      safeNum (coalesce [getField p "diameter_km", getField p "DIAMETER_KM"]) = none →
      safeNum (coalesce [getField p "diameter", getField p "DIAMETER",
        getField p "diam"]) = some d →
      100 ≤ d → resolveDiameter p = some d) ∧
    ((normOut "t" (JSVal.jobj [("diameter", JSVal.jnum 5)])).map NormFeature.diameter_m
      = some (some 5000)) ∧
    ((normOut "t" (JSVal.jobj [("diameter", JSVal.jnum 5000)])).map NormFeature.diameter_m
      = some (some 5000)) := by
  refine ⟨?_, ?_, ?_, ?_, by decide, by decide⟩
  · intro p d hm
    simp only [resolveDiameter, hm]
  · intro p k hm hk
    simp only [resolveDiameter, hm, hk]
  · intro p d hm hk hg h0 hlt
    simp only [resolveDiameter, hm, hk, hg]
    rw [if_pos hlt]
  · intro p d hm hk hg hge
    simp only [resolveDiameter, hm, hk, hg]
    rw [if_neg (not_lt.2 hge)]

/-- Witness for C4: a record with an explicit meters field keeps it. -/
theorem C4_witness :
    resolveDiameter (JSVal.jobj [("diameter_m", JSVal.jnum 7)]) = some 7 :=
  C4_diameter.1 (JSVal.jobj [("diameter_m", JSVal.jnum 7)]) 7 (by decide)

/-- Counterexample to C5 as stated: a record carrying only `lat: 10`
normalizes to a non-null lat with a null lon, so `(lat == null)` and
`(lon == null)` differ. -/
theorem C5_counterexample :
    ((normOut "t" C5rec).map NormFeature.lat = some (some 10)) ∧
    ((normOut "t" C5rec).map NormFeature.lon = some none) := by decide

/-- C5 (amended): the coordinates are resolved independently, so one may
be null without the other; placeability is enforced at the point of use —
annotating a feature with either coordinate null leaves the store
unchanged, and with both coordinates present (and no duplicate) the entry
is appended. -/
theorem C5_placeable (now : String) (f : NormFeature) (anns : List Annot) :
    ((f.lat = none ∨ f.lon = none) → addAnnot now f anns = anns) ∧
    (∀ la lo, f.lat = some la → f.lon = some lo → annotDup f anns = false →
      (addAnnot now f anns).length = anns.length + 1) := by
  constructor
  · intro h
    rcases h with h | h
    · cases hlo : f.lon <;> simp [addAnnot, h, hlo]
    · cases hla : f.lat <;> simp [addAnnot, h, hla]
  · intro la lo hla hlo hdup
    simp [addAnnot, hla, hlo, hdup]

/-- Witness for C5 at a feature with both coordinates null. -/
theorem C5_witness : addAnnot "now" blankFeature [] = [] :=
  (C5_placeable "now" blankFeature []).1 (Or.inl rfl)

/-- Counterexample to C9 as stated: the duplicate check
`a.id && feature.id && ...` is skipped for a falsy (empty-string) id, so
accepting the same feature twice appends a second annotation. -/
theorem C9_counterexample :
    (addAnnot "t2" C9feat (addAnnot "t1" C9feat [])).length
      ≠ (addAnnot "t1" C9feat []).length := by decide

/-- C9 (amended): for a feature whose id is a non-empty string, a second
accept leaves the persisted annotation list unchanged, so at most one
annotation per such id ever exists; a feature with an empty id bypasses
the duplicate check. -/
theorem C9_dedup (now1 now2 : String) (f : NormFeature) (anns : List Annot)
    (hid : f.id ≠ "") :
    addAnnot now2 f (addAnnot now1 f anns) = addAnnot now1 f anns := by
  cases hla : f.lat with
  | none => simp [addAnnot, hla]
  | some la =>
    cases hlo : f.lon with
    | none => simp [addAnnot, hla, hlo]
    | some lo =>
      by_cases hdup : annotDup f anns = true
      · simp [addAnnot, hla, hlo, hdup]
      · have hdupF : annotDup f anns = false := by
          simpa using hdup
        have hB : (f.id != "") = true := by simp [hid]
        have htrue : annotDup f (anns ++ [annotEntry now1 f la lo]) = true := by
          unfold annotDup
          rw [List.any_append]
          simp [annotEntry, hB]
        simp [addAnnot, hla, hlo, hdupF, htrue]

/-- Witness for C9 at a concrete feature accepted twice. -/
theorem C9_witness : addAnnot "n2" C9ok (addAnnot "n1" C9ok []) = addAnnot "n1" C9ok [] :=
  C9_dedup "n1" "n2" C9ok [] (by decide)

/-- C6 (amended): the normalizer never throws except through the
`rec.type.toLowerCase()` call — for every record whose `type` field is
either a string or not truthy, `normalizeRecord` returns normally, for
any shape of the remaining fields. -/
theorem C6_total (tok : String) (rec : JSVal)
    (H : truthy (getField rec "type") = true → ∃ s, getField rec "type" = JSVal.jstr s) :
    isOkB (normalizeRecord tok rec) = true := by
  by_cases ht : truthy rec = true
  · have hok : ∃ b, recTypeCheck rec = Except.ok b := by
      unfold recTypeCheck
      by_cases htt : truthy (getField rec "type") = true
      · obtain ⟨s, hs⟩ := H htt
        rw [if_pos htt, hs]
        exact ⟨_, rfl⟩
      · rw [if_neg htt]
        exact ⟨false, rfl⟩
    obtain ⟨b, hb⟩ := hok
    unfold normalizeRecord
    rw [if_neg (by simp [ht]), hb]
    rfl
  · unfold normalizeRecord
    rw [if_pos (by simpa using ht)]
    rfl

/-- Counterexample to C6 as stated: a record whose `type` field is a
truthy non-string makes `rec.type.toLowerCase()` throw, so the normalizer
is not total on arbitrary records. -/
theorem C6_counterexample : isOkB (normalizeRecord "t" C6rec) = false := by decide

/-- Witness for C6 at a record with a string `type` field. -/
theorem C6_witness :
    isOkB (normalizeRecord "t" (JSVal.jobj [("type", JSVal.jstr "Feature")])) = true :=
  C6_total "t" (JSVal.jobj [("type", JSVal.jstr "Feature")]) (fun _ => ⟨"Feature", rfl⟩)

/-- C7: the Shackleton GeoJSON feature normalizes to lat -89.9, lon -45,
id "Shackleton"; in general, when no lat/lon-like properties resolve and
the geometry carries a numeric coordinate pair, the pair is read in
[lon, lat] order. -/
theorem C7_geojson :
    ((normOut "t" C7rec).map (fun f => (f.lat, f.lon, f.id))
      = some (some (-(899 / 10)), some (-45), "Shackleton")) ∧
    (∀ (props geom : JSVal) (la lo : ℚ),
      safeNum (coalesce [getField props "lat", getField props "latitude",
        getField props "Lat", getField props "center_lat"]) = none →
      safeNum (coalesce [getField props "lon", getField props "longitude",
        getField props "Long", getField props "center_lon"]) = none →
      truthy geom = true →
      getField geom "coordinates" = JSVal.jarr [JSVal.jnum lo, JSVal.jnum la] →
      extractLatLon props geom = (some la, some lo)) := by
  constructor
  · decide
  · intro props geom la lo hlat hlon hg hc
    simp [extractLatLon, hlat, hlon, hg, hc, isArr, arrGet, arrElems, safeNum_jnum]

/-- Witness for C7: the generic [lon, lat] reading applied to the
Shackleton geometry against an empty properties object. -/
theorem C7_witness :
    extractLatLon (JSVal.jobj []) (JSVal.jobj [("coordinates",
      JSVal.jarr [JSVal.jnum (-45), JSVal.jnum (-(899 / 10))])])
      = (some (-(899 / 10)), some (-45)) :=
  C7_geojson.2 (JSVal.jobj [])
    (JSVal.jobj [("coordinates", JSVal.jarr [JSVal.jnum (-45), JSVal.jnum (-(899 / 10))])])
    (-(899 / 10)) (-45) (by decide) (by decide) (by decide) (by rfl)

lemma coalesce_cons_nullish {x : JSVal} (h : isNullish x = true) (y : JSVal)
    (ys : List JSVal) : coalesce (x :: y :: ys) = coalesce (y :: ys) := by
  simp [coalesce, h]

lemma coalesce_cons_not {x : JSVal} (h : isNullish x = false) (xs : List JSVal) :
    coalesce (x :: xs) = x := by
  cases xs with
  | nil => rfl
  | cons y ys => simp [coalesce, h]

/-- C8 (amended): id resolution tries the id-like fields then the
name-like fields; because the ?? chain keeps its last operand when every
operand is nullish, a record with none of these fields non-nullish gets
the stringification of its NAME operand as id — the string "undefined"
when NAME is absent, the string "null" when NAME is an explicit null —
and name defaults to that same id; the synthesized random token is used
only when the resolved id stringifies to the empty string (for example an
explicit empty-string id field). -/
theorem C8_id_chain :
    (∀ (tok : String) (rec : JSVal), truthy rec = true →
      truthy (getField rec "type") = false →
      truthy (getField rec "properties") = false →
      isNullish (getField rec "id") = true →
      isNullish (getField rec "ID") = true →
      isNullish (getField rec "CRATER_ID") = true →
      isNullish (getField rec "name") = true →
      isNullish (getField rec "NAME") = true →
      (normOut tok rec).map NormFeature.id = some (jsToString (getField rec "NAME")) ∧
      (normOut tok rec).map NormFeature.name = some (jsToString (getField rec "NAME"))) ∧
    ((normOut "t" (JSVal.jobj [("NAME", JSVal.jnull)])).map NormFeature.id = some "null") ∧
    (∀ tok : String,
      (normOut tok (JSVal.jobj [("id", JSVal.jstr "")])).map NormFeature.id
        = some ("f_" ++ tok)) := by
  refine ⟨?_, by decide, fun tok => rfl⟩
  intro tok rec htr hty hpr h1 h2 h3 h4 h5
  have hrt : recTypeCheck rec = Except.ok false := by
    unfold recTypeCheck
    rw [if_neg (by simp [hty])]
  have hres : coalesce [getField rec "id", getField rec "ID", getField rec "CRATER_ID",
      getField rec "name", getField rec "NAME"] = getField rec "NAME" := by
    rw [coalesce_cons_nullish h1 _ _, coalesce_cons_nullish h2 _ _,
      coalesce_cons_nullish h3 _ _, coalesce_cons_nullish h4 _ _]
    rfl
  cases hN : getField rec "NAME" with
  | jnull =>
    have hR : jsToString (getField rec "NAME") = "null" := by
      rw [hN]
      rfl
    have hidstr : jsToString (coalesce [getField rec "id", getField rec "ID",
        getField rec "CRATER_ID", getField rec "name", getField rec "NAME"]) = "null" := by
      rw [hres, hN]
      rfl
    have hnm : jsToString (coalesce [getField rec "name", getField rec "NAME",
        JSVal.jstr "null"]) = "null" := by
      rw [coalesce_cons_nullish h4 _ _, coalesce_cons_nullish h5 _ _]
      rfl
    refine ⟨?_, ?_⟩ <;>
        simp [normOut, normalizeRecord, htr, hrt, hpr, hidstr, hnm, hR] <;> rfl
  | jundefined =>
    have hR : jsToString (getField rec "NAME") = "undefined" := by
      rw [hN]
      rfl
    have hidstr : jsToString (coalesce [getField rec "id", getField rec "ID",
        getField rec "CRATER_ID", getField rec "name", getField rec "NAME"]) = "undefined" := by
      rw [hres, hN]
      rfl
    have hnm : jsToString (coalesce [getField rec "name", getField rec "NAME",
        JSVal.jstr "undefined"]) = "undefined" := by
      rw [coalesce_cons_nullish h4 _ _, coalesce_cons_nullish h5 _ _]
      rfl
    refine ⟨?_, ?_⟩ <;>
        simp [normOut, normalizeRecord, htr, hrt, hpr, hidstr, hnm, hR] <;> rfl
  | jbool b =>
    rw [hN] at h5
    simp [isNullish] at h5
  | jnum q =>
    rw [hN] at h5
    simp [isNullish] at h5
  | jstr s =>
    rw [hN] at h5
    simp [isNullish] at h5
  | jarr l =>
    rw [hN] at h5
    simp [isNullish] at h5
  | jobj fs =>
    rw [hN] at h5
    simp [isNullish] at h5

/-- Counterexample to C8 as stated: a record with no id-like and no
name-like field gets the literal id "undefined" (stringified `undefined`),
not the synthesized token "f_tk". -/
theorem C8_counterexample :
    ((normOut "tk" C8empty).map NormFeature.id = some "undefined") ∧
      "undefined" ≠ "f_" ++ "tk" := by decide

/-- Witness for C8 at the empty record (its NAME operand is absent, so
the resolved id and name are the string "undefined"). -/
theorem C8_witness :
    (normOut "tk" C8empty).map NormFeature.id = some "undefined" ∧
    (normOut "tk" C8empty).map NormFeature.name = some "undefined" :=
  C8_id_chain.1 "tk" C8empty rfl rfl rfl rfl rfl rfl rfl rfl

/-- C10: the export is a FeatureCollection with one Feature per stored
annotation; each Feature is a Point at `[lon, lat]` whose properties carry
the id, name, water_score, timestamp and optional comment of the annotation. -/
theorem C10_export (anns : List Annot) :
    (exportAnnotations anns).type = "FeatureCollection" ∧
    (exportAnnotations anns).features.length = anns.length ∧
    (∀ i, i < anns.length →
      (exportFeatAt anns i).type = "Feature" ∧
      (exportFeatAt anns i).geometry.type = "Point" ∧
      (exportFeatAt anns i).geometry.coordinates
        = [(anns.getD i default).lon, (anns.getD i default).lat] ∧
      (exportFeatAt anns i).properties.id = (anns.getD i default).id ∧
      (exportFeatAt anns i).properties.name = (anns.getD i default).name ∧
      (exportFeatAt anns i).properties.water_score = (anns.getD i default).water_score ∧
      (exportFeatAt anns i).properties.ts = (anns.getD i default).ts ∧
      (exportFeatAt anns i).properties.comment = (anns.getD i default).comment) := by
  refine ⟨rfl, by simp [exportAnnotations], fun i hi => ?_⟩
  have he : exportFeatAt anns i = exportFeature (anns.get ⟨i, hi⟩) := by
    unfold exportFeatAt
    have hfe : (exportAnnotations anns).features = anns.map exportFeature := rfl
    rw [hfe, getD_map_of_lt _ _ _ hi]
  have hg : anns.getD i default = anns.get ⟨i, hi⟩ := getD_self_of_lt _ _ hi
  rw [he, hg]
  exact ⟨rfl, rfl, rfl, rfl, rfl, rfl, rfl, rfl⟩

/-- Witness for C10 at the singleton store. -/
theorem C10_witness :
    (exportFeatAt C10demo 0).type = "Feature" ∧
    (exportFeatAt C10demo 0).geometry.type = "Point" ∧
    (exportFeatAt C10demo 0).geometry.coordinates
      = [(C10demo.getD 0 default).lon, (C10demo.getD 0 default).lat] ∧
    (exportFeatAt C10demo 0).properties.id = (C10demo.getD 0 default).id ∧
    (exportFeatAt C10demo 0).properties.name = (C10demo.getD 0 default).name ∧
    (exportFeatAt C10demo 0).properties.water_score = (C10demo.getD 0 default).water_score ∧
    (exportFeatAt C10demo 0).properties.ts = (C10demo.getD 0 default).ts ∧
    (exportFeatAt C10demo 0).properties.comment = (C10demo.getD 0 default).comment :=
  (C10_export C10demo).2.2 0 (by decide)
